import Mathlib

/-!
Verification of the OF2 CLI pipeline (`of2_cli.py`).

The development shallowly embeds the Python source. Pure string/path logic
becomes Lean functions; the ArcPy dataset store and geometry engine are
external collaborators, modelled as an explicit `World` state threaded
through the orchestrator, together with a trace (`log`) of the store/engine
calls issued. Record-level dataset contents, geometry, and selection sets
are outside the program's own logic and are represented only by oracles
(e.g. the schema the engine gives the merge output).
-/

namespace OF2

/-! ### Python `os.path` helpers (POSIX semantics), `str` helpers -/

/-- `startswith` on strings via the underlying character lists. -/
def py_startswith (s pre : String) : Bool :=
  List.isPrefixOf pre.data s.data

/-- `str.lower()`. -/
def py_lower (s : String) : String :=
  String.mk (s.data.map Char.toLower)

/-- `os.path.isabs` (POSIX): begins with a slash. -/
def os_isabs (p : String) : Bool :=
  py_startswith p "/"

/-- `str.endswith`. -/
def py_endswith (s suf : String) : Bool :=
  List.isPrefixOf suf.data.reverse s.data.reverse

/-- `os.path.join` (POSIX, two arguments). -/
def os_join (a b : String) : String :=
  if os_isabs b then b
  else if a = "" ∨ py_endswith a "/" then a ++ b
  else a ++ "/" ++ b

/-- `os.path.dirname` (POSIX): everything up to the last slash, with
trailing slashes stripped unless the head is all slashes. -/
def os_dirname (p : String) : String :=
  let cs := p.data
  let base := cs.reverse.takeWhile (fun c => c ≠ '/')
  let head := cs.take (cs.length - base.length)
  if head.isEmpty then ""
  else if head.all (fun c => c = '/') then String.mk head
  else String.mk (head.reverse.dropWhile (fun c => c = '/')).reverse

/-- `os.path.abspath`, relative to an explicit current directory.
(Path normalisation performed by the real `abspath` is not modelled;
no property below depends on it.) -/
def os_abspath (cwd p : String) : String :=
  if os_isabs p then p else os_join cwd p

/-! ### `resolve_dataset` -/

/-- `resolve_dataset(path_or_name, workspace_gdb)`: absolute paths and
http(s) URLs pass through unchanged, anything else is joined to the
workspace. -/
def resolve_dataset (path_or_name workspace_gdb : String) : String :=
  if os_isabs path_or_name
      ∨ py_startswith (py_lower path_or_name) "http://"
      ∨ py_startswith (py_lower path_or_name) "https://" then
    path_or_name
  else
    os_join workspace_gdb path_or_name

/-! ### `build_field_mappings` -/

/-- One `arcpy.FieldMap` as the plan records it: the ordered candidate
input fields `(source, field_name)`, the output field's technical name and
alias, and the merge rule. -/
structure FieldMap where
  inputFields : List (String × String)
  outName : String
  outAlias : String
  mergeRule : String
deriving Repr, DecidableEq

/-- The `RuntimeError` raised when a desired field is in no input:
it names the missing field and the list of inputs checked. -/
structure SchemaMismatch where
  fieldName : String
  inputs : List String
deriving Repr, DecidableEq

/-- The inner `for src in inputs` loop of `build_field_mappings`:
`fmap.addInputField(src, field_name)` succeeds exactly when `src` has the
field (otherwise the exception is swallowed and the source skipped).
Returns the accumulated candidate list and the `added_any` flag. -/
def fmapAddLoop (fieldsOf : String → List String) (field_name : String)
    (inputs : List String) : List (String × String) × Bool :=
  inputs.foldl
    (fun acc src =>
      if (fieldsOf src).contains field_name then
        (acc.1 ++ [(src, field_name)], true)
      else
        acc)
    ([], false)

/-- The outer `for field_name, alias in desired` loop, carrying the
`field_mappings` accumulated so far. -/
def build_loop (fieldsOf : String → List String) (inputs : List String) :
    List (String × String) → List FieldMap → Except SchemaMismatch (List FieldMap)
  | [], acc => .ok acc
  | (field_name, al) :: rest, acc =>
    let r := fmapAddLoop fieldsOf field_name inputs
    if r.2 = false then
      .error { fieldName := field_name, inputs := inputs }
    else
      build_loop fieldsOf inputs rest
        (acc ++ [{ inputFields := r.1, outName := field_name,
                   outAlias := al, mergeRule := "First" }])

/-- `build_field_mappings(inputs)`: one field rule per desired
`(field_name, alias)` pair, in the given order. `fieldsOf` is the store's
field listing for each input. -/
def build_field_mappings (fieldsOf : String → List String)
    (inputs : List String) : Except SchemaMismatch (List FieldMap) :=
  build_loop fieldsOf inputs
    [("OrigPlan", "Original Plan"), ("DocLink", "Document Link")] []

/-! ### The ArcPy world

The dataset store and geometry engine are external; `run_of2` is embedded
as explicit state passing over a `World` that records which datasets
exist, their schemas, and a trace of the store/engine calls issued.
Record-level contents and geometry are not part of the program's own
logic; the schema the engine gives the merge output is an oracle
(`mergeResultFields`), as is whether the merge call itself fails
(`mergeFails`, the `EngineFailure` case of the error taxonomy). -/

/-- The settings `arcpy.EnvManager` is entered with. -/
structure ArcEnv where
  workspace : String
  scratchWorkspace : String
  overwriteOutput : Bool
  parallelProcessingFactor : String
deriving Repr, DecidableEq

/-- One store/engine call, as recorded in the trace. -/
inductive Event where
  | envEnter (e : ArcEnv)
  | envExit
  | deleteE (ref : String)
  | makeLayer (ds layer whereClause : String)
  | selectByLocation (inLayers : List String) (overlapType : String)
      (selectFeatures : String) (selectionType : String)
  | getCountE (layer : String)
  | logInfo (msg : String)
  | mergeE (inputs : List String) (output : String)
  | deleteIdenticalE (ds : String) (fields : List String)
  | logWarning (msg : String)
deriving Repr, DecidableEq

/-- The observable state of the external collaborators. -/
structure World where
  cwd : String
  existing : List String
  fields : List (String × List String)
  counts : List (String × Nat)
  mergeResultFields : List String
  mergeFails : Bool
  envStack : List ArcEnv
  log : List Event
deriving Repr

/-- Field listing of a dataset or layer (first matching entry wins). -/
def lookupF (fs : List (String × List String)) (ref : String) : List String :=
  match fs.find? (fun p => p.1 = ref) with
  | some p => p.2
  | none => []

/-- Feature count oracle for `GetCount`. -/
def lookupCount (cs : List (String × Nat)) (ref : String) : Nat :=
  match cs.find? (fun p => p.1 = ref) with
  | some p => p.2
  | none => 0

/-- `arcpy.Exists`. -/
def arcpy_Exists (w : World) (ref : String) : Bool :=
  w.existing.contains ref

/-- Append one event to the trace. -/
def logEvent (w : World) (e : Event) : World :=
  { w with log := w.log ++ [e] }

/-- `arcpy.management.Delete`: the dataset/layer and its schema are gone. -/
def arcpy_Delete (w : World) (ref : String) : World :=
  { w with existing := w.existing.filter (fun r => r ≠ ref),
           fields := w.fields.filter (fun p => p.1 ≠ ref),
           log := w.log ++ [.deleteE ref] }

/-- `arcpy.management.MakeFeatureLayer`: a layer over the dataset, with the
dataset's schema. (The filter predicate restricts records, not fields.) -/
def arcpy_MakeFeatureLayer (w : World) (ds layer whereClause : String) : World :=
  { w with existing := w.existing ++ [layer],
           fields := (layer, lookupF w.fields ds) :: w.fields,
           log := w.log ++ [.makeLayer ds layer whereClause] }

/-- `arcpy.management.GetCount` (count oracle; the value feeds only the
diagnostic log line). -/
def arcpy_GetCount (w : World) (layer : String) : Nat × World :=
  (lookupCount w.counts layer, logEvent w (.getCountE layer))

/-- `arcpy.management.Merge`: on success, writes a dataset at `output`
whose schema is the engine-determined oracle, and its result's first
element is the output path. `fm` is the plan handed to the engine; how the
engine populates records from it is external. -/
def arcpy_Merge (w : World) (inputs : List String) (output : String)
    (fm : List FieldMap) : Except Unit String × World :=
  if w.mergeFails then
    (.error (), logEvent w (.mergeE inputs output))
  else
    (.ok output,
     { w with existing := w.existing ++ [output],
              fields := (output, w.mergeResultFields) :: w.fields,
              log := w.log ++ [.mergeE inputs output] })

/-- `ensure_layer(dataset_path, layer_name, where)`: delete any stale
layer of that name, then create the feature layer (`where or ""`). -/
def ensure_layer (dataset_path layer_name : String) (whereC : Option String)
    (w : World) : String × World :=
  let w1 := if arcpy_Exists w layer_name then arcpy_Delete w layer_name else w
  let w2 := arcpy_MakeFeatureLayer w1 dataset_path layer_name (whereC.getD "")
  (layer_name, w2)

/-- The error taxonomy of `run_of2`: the two `FileNotFoundError`/
`RuntimeError` raises of the source, plus engine failure. -/
inductive OfError where
  | datasetNotFound (which : String) (path : String)
  | schemaMismatch (e : SchemaMismatch)
  | engineFailure
deriving Repr, DecidableEq

/-- Step "Make layers" of `run_of2`: the three `ensure_layer` calls
(`parcels_lyr`, `sc_lyr`, `so_lyr` are the literal layer names the calls
return; the attribute expression applies to Parcels only). -/
def of2_layerify (expression parcels_path sc_path so_path : String)
    (w : World) : World :=
  (ensure_layer so_path "storm_cleanout_layer" none
    (ensure_layer sc_path "storm_catchment_layer" none
      (ensure_layer parcels_path "parcels_layer" (some expression) w).2).2).2

/-- Step "Spatially select storm layers by parcels" of `run_of2`:
`SelectLayerByLocation` on both storm layers against the parcels layer
(the candidate layers' selection sets are not part of the program's own
logic and are represented by the trace alone). -/
def of2_select (w : World) : World :=
  logEvent w (.selectByLocation ["storm_catchment_layer", "storm_cleanout_layer"]
    "INTERSECT" "parcels_layer" "NEW_SELECTION")

/-- Step "Diagnostics" of `run_of2`: the two `GetCount` calls and the
`logging.info` line built from them. -/
def of2_counts (w : World) : World :=
  let c1 := arcpy_GetCount w "storm_catchment_layer"
  let c2 := arcpy_GetCount c1.2 "storm_cleanout_layer"
  logEvent c2.2
    (.logInfo ("Selected " ++ toString c1.1 ++ " catchment and "
      ++ toString c2.1 ++ " cleanout features"))

/-- Steps "Merge" and "Remove duplicates" of `run_of2`: build the field
mappings from the two storm layers, resolve the output path, delete a
stale output, merge, then `DeleteIdentical` on `OrigPlan` when present in
the output schema (warning and skip otherwise). -/
def of2_finish (workspace_gdb output_fc : String) (w : World) :
    Except OfError String × World :=
  match build_field_mappings (lookupF w.fields)
      ["storm_catchment_layer", "storm_cleanout_layer"] with
  | .error e => (.error (.schemaMismatch e), w)
  | .ok field_mappings =>
    let out_path :=
      if os_dirname output_fc ≠ "" then output_fc
      else os_join workspace_gdb output_fc
    let w5 := if arcpy_Exists w out_path then arcpy_Delete w out_path else w
    let m := arcpy_Merge w5 ["storm_catchment_layer", "storm_cleanout_layer"]
      out_path field_mappings
    match m.1 with
    | .error _ => (.error .engineFailure, m.2)
    | .ok out_fc_path =>
      if (lookupF m.2.fields out_fc_path).contains "OrigPlan" then
        (.ok out_fc_path,
         logEvent m.2 (.deleteIdenticalE out_fc_path ["OrigPlan"]))
      else
        (.ok out_fc_path,
         logEvent m.2 (.logWarning
           "Field 'OrigPlan' not present in output; skipping DeleteIdentical"))

/-- The body of `run_of2`'s `with arcpy.EnvManager(...)` block.
`workspace_gdb` is already absolute here. -/
def run_of2_body (expression workspace_gdb storm_catchment storm_cleanout
    parcels output_fc : String) (w : World) : Except OfError String × World :=
  let parcels_path := resolve_dataset parcels workspace_gdb
  let sc_path := resolve_dataset storm_catchment workspace_gdb
  let so_path := resolve_dataset storm_cleanout workspace_gdb
  if arcpy_Exists w parcels_path = false then
    (.error (.datasetNotFound "Parcels" parcels_path), w)
  else if arcpy_Exists w sc_path = false then
    (.error (.datasetNotFound "Storm Catchment" sc_path), w)
  else if arcpy_Exists w so_path = false then
    (.error (.datasetNotFound "Storm Cleanout" so_path), w)
  else
    of2_finish workspace_gdb output_fc
      (of2_counts (of2_select
        (of2_layerify expression parcels_path sc_path so_path w)))

/-- `run_of2`: normalise workspace/scratch, enter the scoped environment,
run the body, and — as the `with` statement guarantees on every exit path,
normal or exceptional — leave the scoped environment again. -/
def run_of2 (expression workspace_gdb storm_catchment storm_cleanout
    parcels output_fc : String) (scratch_gdb : Option String)
    (w : World) : Except OfError String × World :=
  let workspace_abs := os_abspath w.cwd workspace_gdb
  let scratch_abs :=
    match scratch_gdb with
    | some s => if s = "" then workspace_abs else os_abspath w.cwd s
    | none => workspace_abs
  let env : ArcEnv :=
    { workspace := workspace_abs, scratchWorkspace := scratch_abs,
      overwriteOutput := true, parallelProcessingFactor := "100%" }
  let w1 := { w with envStack := env :: w.envStack,
                     log := w.log ++ [.envEnter env] }
  let r := run_of2_body expression workspace_abs storm_catchment
    storm_cleanout parcels output_fc w1
  (r.1, { r.2 with envStack := r.2.envStack.tail,
                   log := r.2.log ++ [.envExit] })

/-! #### Lemmas about the builder -/

theorem fmapAddLoop_eq (fieldsOf : String → List String) (field_name : String)
    (inputs : List String) :
    fmapAddLoop fieldsOf field_name inputs =
      ((inputs.filter (fun src => (fieldsOf src).contains field_name)).map
         (fun src => (src, field_name)),
       inputs.any (fun src => (fieldsOf src).contains field_name)) := by
  suffices h : ∀ (acc : List (String × String)) (b : Bool),
      inputs.foldl
        (fun acc src =>
          if (fieldsOf src).contains field_name then
            (acc.1 ++ [(src, field_name)], true)
          else acc)
        (acc, b) =
      (acc ++ (inputs.filter (fun src => (fieldsOf src).contains field_name)).map
         (fun src => (src, field_name)),
       b || inputs.any (fun src => (fieldsOf src).contains field_name)) by
    simpa [fmapAddLoop] using h [] false
  intro acc b
  induction inputs generalizing acc b with
  | nil => simp
  | cons hd tl ih =>
    rw [List.foldl_cons]
    by_cases hhd : (fieldsOf hd).contains field_name = true
    · rw [if_pos hhd, ih,
        List.filter_cons_of_pos (p := fun src => (fieldsOf src).contains field_name) hhd,
        List.any_cons, hhd]
      simp
    · rw [if_neg hhd, ih,
        List.filter_cons_of_neg (p := fun src => (fieldsOf src).contains field_name) hhd,
        List.any_cons]
      rw [Bool.not_eq_true] at hhd
      rw [hhd]
      simp

theorem contains_iff_mem {l : List String} {a : String} :
    l.contains a = true ↔ a ∈ l := by
  simp [List.contains, List.elem_iff]

/-- Closed form of `build_field_mappings`: the loop over the two desired
fields either stops at the first field absent from every input, or yields
the two field rules. -/
theorem build_field_mappings_eq (fieldsOf : String → List String)
    (inputs : List String) :
    build_field_mappings fieldsOf inputs =
      if (inputs.any fun src => (fieldsOf src).contains "OrigPlan") = false then
        .error { fieldName := "OrigPlan", inputs := inputs }
      else if (inputs.any fun src => (fieldsOf src).contains "DocLink") = false then
        .error { fieldName := "DocLink", inputs := inputs }
      else
        .ok [{ inputFields :=
                 (inputs.filter fun src => (fieldsOf src).contains "OrigPlan").map
                   (fun src => (src, "OrigPlan")),
               outName := "OrigPlan", outAlias := "Original Plan",
               mergeRule := "First" },
             { inputFields :=
                 (inputs.filter fun src => (fieldsOf src).contains "DocLink").map
                   (fun src => (src, "DocLink")),
               outName := "DocLink", outAlias := "Document Link",
               mergeRule := "First" }] := by
  cases h1 : inputs.any fun src => (fieldsOf src).contains "OrigPlan" with
  | false =>
    simp only [build_field_mappings, build_loop, fmapAddLoop_eq, h1, reduceIte]
  | true =>
    cases h2 : inputs.any fun src => (fieldsOf src).contains "DocLink" with
    | false =>
      simp only [build_field_mappings, build_loop, fmapAddLoop_eq, h1, h2, reduceIte]
    | true =>
      simp only [build_field_mappings, build_loop, fmapAddLoop_eq, h1, h2, reduceIte]
      simp

/-! #### Observation lemmas for the store/engine operations -/

@[simp]
theorem logEvent_existing (w : World) (e : Event) :
    (logEvent w e).existing = w.existing := rfl

@[simp]
theorem logEvent_fields (w : World) (e : Event) :
    (logEvent w e).fields = w.fields := rfl

@[simp]
theorem logEvent_counts (w : World) (e : Event) :
    (logEvent w e).counts = w.counts := rfl

@[simp]
theorem logEvent_mergeResultFields (w : World) (e : Event) :
    (logEvent w e).mergeResultFields = w.mergeResultFields := rfl

@[simp]
theorem logEvent_mergeFails (w : World) (e : Event) :
    (logEvent w e).mergeFails = w.mergeFails := rfl

@[simp]
theorem logEvent_envStack (w : World) (e : Event) :
    (logEvent w e).envStack = w.envStack := rfl

@[simp]
theorem logEvent_log (w : World) (e : Event) :
    (logEvent w e).log = w.log ++ [e] := rfl

@[simp]
theorem exists_logEvent (w : World) (e : Event) (r : String) :
    arcpy_Exists (logEvent w e) r = arcpy_Exists w r := rfl

@[simp]
theorem delete_counts (w : World) (k : String) :
    (arcpy_Delete w k).counts = w.counts := rfl

@[simp]
theorem delete_mergeResultFields (w : World) (k : String) :
    (arcpy_Delete w k).mergeResultFields = w.mergeResultFields := rfl

@[simp]
theorem delete_mergeFails (w : World) (k : String) :
    (arcpy_Delete w k).mergeFails = w.mergeFails := rfl

@[simp]
theorem delete_envStack (w : World) (k : String) :
    (arcpy_Delete w k).envStack = w.envStack := rfl

@[simp]
theorem delete_log (w : World) (k : String) :
    (arcpy_Delete w k).log = w.log ++ [.deleteE k] := rfl

theorem contains_filter_ne (l : List String) (r k : String) (h : r ≠ k) :
    (l.filter fun x => x ≠ k).contains r = l.contains r := by
  rw [Bool.eq_iff_iff]
  simp only [contains_iff_mem, List.mem_filter]
  constructor
  · exact fun hm => hm.1
  · exact fun hm => ⟨hm, by simpa using h⟩

@[simp]
theorem exists_delete_ne (w : World) (k r : String) (h : r ≠ k) :
    arcpy_Exists (arcpy_Delete w k) r = arcpy_Exists w r := by
  unfold arcpy_Exists arcpy_Delete
  exact contains_filter_ne w.existing r k h

theorem lookupF_cons (k : String) (v : List String)
    (fs : List (String × List String)) (r : String) :
    lookupF ((k, v) :: fs) r = if k = r then v else lookupF fs r := by
  by_cases h : k = r
  · simp [lookupF, List.find?_cons_of_pos, h]
  · simp [lookupF, List.find?_cons_of_neg, h]

theorem lookupF_filter_ne (fs : List (String × List String)) (r k : String)
    (h : r ≠ k) :
    lookupF (fs.filter fun p => p.1 ≠ k) r = lookupF fs r := by
  induction fs with
  | nil => rfl
  | cons a t ih =>
    obtain ⟨a1, a2⟩ := a
    rw [List.filter_cons]
    by_cases hak : a1 = k
    · have har : a1 ≠ r := fun hr => h (hr ▸ hak)
      have hcond : ¬(decide ¬(a1, a2).1 = k = true) := by simp [hak]
      rw [if_neg hcond, ih, lookupF_cons, if_neg har]
    · have hcond : decide ¬(a1, a2).1 = k = true := by simp [hak]
      rw [if_pos hcond, lookupF_cons, lookupF_cons, ih]

@[simp]
theorem lookupF_delete_ne (w : World) (k r : String) (h : r ≠ k) :
    lookupF (arcpy_Delete w k).fields r = lookupF w.fields r :=
  lookupF_filter_ne w.fields r k h

@[simp]
theorem mkLayer_counts (w : World) (d l c : String) :
    (arcpy_MakeFeatureLayer w d l c).counts = w.counts := rfl

@[simp]
theorem mkLayer_mergeResultFields (w : World) (d l c : String) :
    (arcpy_MakeFeatureLayer w d l c).mergeResultFields = w.mergeResultFields := rfl

@[simp]
theorem mkLayer_mergeFails (w : World) (d l c : String) :
    (arcpy_MakeFeatureLayer w d l c).mergeFails = w.mergeFails := rfl

@[simp]
theorem mkLayer_envStack (w : World) (d l c : String) :
    (arcpy_MakeFeatureLayer w d l c).envStack = w.envStack := rfl

@[simp]
theorem mkLayer_log (w : World) (d l c : String) :
    (arcpy_MakeFeatureLayer w d l c).log = w.log ++ [.makeLayer d l c] := rfl

@[simp]
theorem exists_mkLayer (w : World) (d l c : String) (r : String) :
    arcpy_Exists (arcpy_MakeFeatureLayer w d l c) r =
      (arcpy_Exists w r || r == l) := by
  rw [Bool.eq_iff_iff]
  unfold arcpy_Exists arcpy_MakeFeatureLayer
  simp [contains_iff_mem, List.mem_append]

@[simp]
theorem lookupF_mkLayer_self (w : World) (d l c : String) :
    lookupF (arcpy_MakeFeatureLayer w d l c).fields l = lookupF w.fields d := by
  unfold arcpy_MakeFeatureLayer
  simp [lookupF_cons]

@[simp]
theorem lookupF_mkLayer_ne (w : World) (d l c : String) (r : String)
    (h : l ≠ r) :
    lookupF (arcpy_MakeFeatureLayer w d l c).fields r = lookupF w.fields r := by
  unfold arcpy_MakeFeatureLayer
  simp [lookupF_cons, h]

@[simp]
theorem getCount_fst (w : World) (l : String) :
    (arcpy_GetCount w l).1 = lookupCount w.counts l := rfl

@[simp]
theorem getCount_snd (w : World) (l : String) :
    (arcpy_GetCount w l).2 = logEvent w (.getCountE l) := rfl

theorem merge_of_ok (w : World) (i : List String) (o : String)
    (fm : List FieldMap) (hmf : w.mergeFails = false) :
    arcpy_Merge w i o fm =
      (.ok o,
       { w with existing := w.existing ++ [o],
                fields := (o, w.mergeResultFields) :: w.fields,
                log := w.log ++ [.mergeE i o] }) := by
  rw [arcpy_Merge, if_neg]
  rw [hmf]
  simp

@[simp]
theorem ensure_layer_fst (d l : String) (c : Option String) (w : World) :
    (ensure_layer d l c w).1 = l := rfl

@[simp]
theorem ensure_layer_counts (d l : String) (c : Option String) (w : World) :
    (ensure_layer d l c w).2.counts = w.counts := by
  unfold ensure_layer
  split <;> rfl

@[simp]
theorem ensure_layer_mergeResultFields (d l : String) (c : Option String)
    (w : World) :
    (ensure_layer d l c w).2.mergeResultFields = w.mergeResultFields := by
  unfold ensure_layer
  split <;> rfl

@[simp]
theorem ensure_layer_mergeFails (d l : String) (c : Option String) (w : World) :
    (ensure_layer d l c w).2.mergeFails = w.mergeFails := by
  unfold ensure_layer
  split <;> rfl

@[simp]
theorem ensure_layer_envStack (d l : String) (c : Option String) (w : World) :
    (ensure_layer d l c w).2.envStack = w.envStack := by
  unfold ensure_layer
  split <;> rfl

@[simp]
theorem ensure_layer_log (d l : String) (c : Option String) (w : World) :
    (ensure_layer d l c w).2.log =
      w.log ++ (if arcpy_Exists w l then [.deleteE l] else [])
        ++ [.makeLayer d l (c.getD "")] := by
  unfold ensure_layer
  split <;> simp

@[simp]
theorem exists_ensure_layer_ne (d l : String) (c : Option String) (w : World)
    (r : String) (h : r ≠ l) :
    arcpy_Exists (ensure_layer d l c w).2 r = arcpy_Exists w r := by
  unfold ensure_layer
  split
  · simp [h, exists_delete_ne]
  · simp [h]

@[simp]
theorem lookupF_ensure_layer_self (d l : String) (c : Option String)
    (w : World) (h : d ≠ l) :
    lookupF (ensure_layer d l c w).2.fields l = lookupF w.fields d := by
  unfold ensure_layer
  split
  · rw [lookupF_mkLayer_self, lookupF_delete_ne _ _ _ h]
  · rw [lookupF_mkLayer_self]

@[simp]
theorem lookupF_ensure_layer_ne (d l : String) (c : Option String)
    (w : World) (r : String) (h : r ≠ l) :
    lookupF (ensure_layer d l c w).2.fields r = lookupF w.fields r := by
  unfold ensure_layer
  split
  · rw [lookupF_mkLayer_ne _ _ _ _ _ (fun hl => h hl.symm),
      lookupF_delete_ne _ _ _ h]
  · rw [lookupF_mkLayer_ne _ _ _ _ _ (fun hl => h hl.symm)]

/-! ### Claims about the Field Mapping Builder -/

/-- C1: whenever each of the two desired fields (`OrigPlan` alias
`Original Plan`, `DocLink` alias `Document Link`) is present in at least
one input source, `build_field_mappings` succeeds with exactly one field
rule per desired field, in the given order, each rule's output field
keeping the desired technical name and display alias — even when only one
source contributes. -/
theorem c1_build_plan_success (fieldsOf : String → List String)
    (inputs : List String)
    (h1 : ∃ src ∈ inputs, "OrigPlan" ∈ fieldsOf src)
    (h2 : ∃ src ∈ inputs, "DocLink" ∈ fieldsOf src) :
    ∃ r1 r2 : FieldMap,
      build_field_mappings fieldsOf inputs = .ok [r1, r2] ∧
      r1.outName = "OrigPlan" ∧ r1.outAlias = "Original Plan" ∧
      r2.outName = "DocLink" ∧ r2.outAlias = "Document Link" := by
  have hb1 : (inputs.any fun src => (fieldsOf src).contains "OrigPlan") = true := by
    rw [List.any_eq_true]
    obtain ⟨s, hs, hf⟩ := h1
    exact ⟨s, hs, contains_iff_mem.mpr hf⟩
  have hb2 : (inputs.any fun src => (fieldsOf src).contains "DocLink") = true := by
    rw [List.any_eq_true]
    obtain ⟨s, hs, hf⟩ := h2
    exact ⟨s, hs, contains_iff_mem.mpr hf⟩
  refine ⟨{ inputFields :=
              (inputs.filter fun src => (fieldsOf src).contains "OrigPlan").map
                (fun src => (src, "OrigPlan")),
            outName := "OrigPlan", outAlias := "Original Plan",
            mergeRule := "First" },
          { inputFields :=
              (inputs.filter fun src => (fieldsOf src).contains "DocLink").map
                (fun src => (src, "DocLink")),
            outName := "DocLink", outAlias := "Document Link",
            mergeRule := "First" }, ?_, rfl, rfl, rfl, rfl⟩
  rw [build_field_mappings_eq, hb1, hb2]
  simp

/-- Witness for C1: a single source carrying both fields suffices. -/
theorem c1_build_plan_success_witness :
    ∃ r1 r2 : FieldMap,
      build_field_mappings
        (fun s => if s = "cat" then ["OrigPlan", "DocLink"] else [])
        ["cat", "clean"] = .ok [r1, r2] ∧
      r1.outName = "OrigPlan" ∧ r1.outAlias = "Original Plan" ∧
      r2.outName = "DocLink" ∧ r2.outAlias = "Document Link" :=
  c1_build_plan_success _ _ (by decide) (by decide)

/-- C2: if some desired field is in no input source, plan construction
fails with an error naming that field and the inputs checked, and no
partial plan is returned; a source lacking a field that another source
has is merely excluded from that rule's candidates, not an error. -/
theorem c2_schema_mismatch (fieldsOf : String → List String)
    (inputs : List String) :
    (((∀ src ∈ inputs, "OrigPlan" ∉ fieldsOf src) ∨
      (∀ src ∈ inputs, "DocLink" ∉ fieldsOf src)) →
      ∃ e : SchemaMismatch,
        build_field_mappings fieldsOf inputs = .error e ∧
        (e.fieldName = "OrigPlan" ∨ e.fieldName = "DocLink") ∧
        (∀ src ∈ inputs, e.fieldName ∉ fieldsOf src) ∧
        e.inputs = inputs ∧
        ∀ plan, build_field_mappings fieldsOf inputs ≠ .ok plan) ∧
    (∀ (src : String) (plan : List FieldMap),
      build_field_mappings fieldsOf inputs = .ok plan → src ∈ inputs →
      ∀ r ∈ plan, r.outName ∉ fieldsOf src →
        ∀ c ∈ r.inputFields, c.1 ≠ src) := by
  constructor
  · intro h
    by_cases hb1 : (inputs.any fun src => (fieldsOf src).contains "OrigPlan") = true
    · have hall : ∀ src ∈ inputs, "DocLink" ∉ fieldsOf src := by
        rcases h with h | h
        · exfalso
          rw [List.any_eq_true] at hb1
          obtain ⟨s, hs, hf⟩ := hb1
          exact h s hs (contains_iff_mem.mp hf)
        · exact h
      have hb2 : (inputs.any fun src => (fieldsOf src).contains "DocLink") = false := by
        rw [Bool.eq_false_iff]
        intro hc
        rw [List.any_eq_true] at hc
        obtain ⟨s, hs, hf⟩ := hc
        exact hall s hs (contains_iff_mem.mp hf)
      refine ⟨{ fieldName := "DocLink", inputs := inputs }, ?_, Or.inr rfl, hall, rfl, ?_⟩
      · rw [build_field_mappings_eq, hb1, hb2]
        simp
      · intro plan
        rw [build_field_mappings_eq, hb1, hb2]
        simp
    · rw [Bool.not_eq_true] at hb1
      have hall : ∀ src ∈ inputs, "OrigPlan" ∉ fieldsOf src := by
        intro s hs hf
        rw [Bool.eq_false_iff] at hb1
        exact hb1 (List.any_eq_true.mpr ⟨s, hs, contains_iff_mem.mpr hf⟩)
      refine ⟨{ fieldName := "OrigPlan", inputs := inputs }, ?_, Or.inl rfl, hall, rfl, ?_⟩
      · rw [build_field_mappings_eq, hb1]
        simp
      · intro plan
        rw [build_field_mappings_eq, hb1]
        simp
  · intro src plan hok hsrc r hr hnot c hc
    rw [build_field_mappings_eq] at hok
    by_cases hb1 : (inputs.any fun s => (fieldsOf s).contains "OrigPlan") = true
    · by_cases hb2 : (inputs.any fun s => (fieldsOf s).contains "DocLink") = true
      · rw [hb1, hb2] at hok
        simp only [Bool.true_eq_false, if_false] at hok
        cases hok
        simp only [List.mem_cons, List.mem_singleton, List.not_mem_nil, or_false] at hr
        rcases hr with hr | hr <;> subst hr <;>
        · simp only [List.mem_map, List.mem_filter] at hc
          obtain ⟨s, ⟨hsmem, hsf⟩, hceq⟩ := hc
          intro hcs
          apply hnot
          rw [← hcs, ← hceq]
          exact contains_iff_mem.mp hsf
      · rw [Bool.not_eq_true] at hb2
        rw [hb1, hb2] at hok
        simp at hok
    · rw [Bool.not_eq_true] at hb1
      rw [hb1] at hok
      simp at hok

/-- Witness for C2: `OrigPlan` missing from every input makes the plan
fail naming it; and in a successful plan, the source lacking `DocLink` is
excluded from that rule's candidates. -/
theorem c2_schema_mismatch_witness :
    (∃ e : SchemaMismatch,
        build_field_mappings (fun s => if s = "cat" then ["DocLink"] else [])
          ["cat", "clean"] = .error e ∧
        (e.fieldName = "OrigPlan" ∨ e.fieldName = "DocLink") ∧
        (∀ src ∈ (["cat", "clean"] : List String),
          e.fieldName ∉ (fun s => if s = "cat" then ["DocLink"] else []) src) ∧
        e.inputs = ["cat", "clean"] ∧
        ∀ plan, build_field_mappings (fun s => if s = "cat" then ["DocLink"] else [])
          ["cat", "clean"] ≠ .ok plan) ∧
    (∀ c ∈ ({ inputFields := [("cat", "DocLink")], outName := "DocLink",
              outAlias := "Document Link", mergeRule := "First" } : FieldMap).inputFields,
      c.1 ≠ "clean") :=
  ⟨(c2_schema_mismatch (fun s => if s = "cat" then ["DocLink"] else [])
      ["cat", "clean"]).1 (Or.inl (by decide)),
   (c2_schema_mismatch
      (fun s => if s = "cat" then ["OrigPlan", "DocLink"] else ["OrigPlan"])
      ["cat", "clean"]).2 "clean"
      [{ inputFields := [("cat", "OrigPlan"), ("clean", "OrigPlan")],
         outName := "OrigPlan", outAlias := "Original Plan", mergeRule := "First" },
       { inputFields := [("cat", "DocLink")], outName := "DocLink",
         outAlias := "Document Link", mergeRule := "First" }]
      rfl (by decide)
      _ (by simp) (by decide)⟩

/-- C3: every rule of a successfully built plan carries merge rule
`"First"` (first non-empty candidate wins at merge time), and its
candidate list is exactly the sources having the field, in the order the
sources were given. -/
theorem c3_merge_policy (fieldsOf : String → List String)
    (inputs : List String) (plan : List FieldMap)
    (hok : build_field_mappings fieldsOf inputs = .ok plan) :
    ∀ r ∈ plan, r.mergeRule = "First" ∧
      r.inputFields =
        (inputs.filter fun src => (fieldsOf src).contains r.outName).map
          (fun src => (src, r.outName)) := by
  rw [build_field_mappings_eq] at hok
  by_cases hb1 : (inputs.any fun s => (fieldsOf s).contains "OrigPlan") = true
  · by_cases hb2 : (inputs.any fun s => (fieldsOf s).contains "DocLink") = true
    · rw [hb1, hb2] at hok
      simp only [Bool.true_eq_false, if_false] at hok
      cases hok
      intro r hr
      simp only [List.mem_cons, List.mem_singleton, List.not_mem_nil, or_false] at hr
      rcases hr with hr | hr <;> subst hr <;> exact ⟨rfl, rfl⟩
    · rw [Bool.not_eq_true] at hb2
      rw [hb1, hb2] at hok
      simp at hok
  · rw [Bool.not_eq_true] at hb1
    rw [hb1] at hok
    simp at hok

/-- Witness for C3 at a concrete heterogeneous pair of sources,
instantiated at the `DocLink` rule of the resulting plan. -/
theorem c3_merge_policy_witness :
    ({ inputFields := [("clean", "DocLink")], outName := "DocLink",
       outAlias := "Document Link", mergeRule := "First" } : FieldMap).mergeRule
      = "First" ∧
    ({ inputFields := [("clean", "DocLink")], outName := "DocLink",
       outAlias := "Document Link", mergeRule := "First" } : FieldMap).inputFields
      = ((["cat", "clean"] : List String).filter
          (fun src => ((fun s => if s = "clean" then ["OrigPlan", "DocLink"]
            else ["OrigPlan"]) src).contains
            ({ inputFields := [("clean", "DocLink")], outName := "DocLink",
               outAlias := "Document Link",
               mergeRule := "First" } : FieldMap).outName)).map
          (fun src => (src,
            ({ inputFields := [("clean", "DocLink")], outName := "DocLink",
               outAlias := "Document Link",
               mergeRule := "First" } : FieldMap).outName)) :=
  c3_merge_policy
    (fun s => if s = "clean" then ["OrigPlan", "DocLink"] else ["OrigPlan"])
    ["cat", "clean"]
    [{ inputFields := [("cat", "OrigPlan"), ("clean", "OrigPlan")],
       outName := "OrigPlan", outAlias := "Original Plan",
       mergeRule := "First" },
     { inputFields := [("clean", "DocLink")], outName := "DocLink",
       outAlias := "Document Link", mergeRule := "First" }] rfl
    _ (by decide)

/-! ### Claims about dataset reference resolution -/

/-- C4: a reference that is an absolute path or http(s)-prefixed is
returned by `resolve_dataset` unchanged; any other reference is joined to
the workspace root. -/
theorem c4_resolve_passthrough_or_join (ref ws : String) :
    ((os_isabs ref = true ∨
      py_startswith (py_lower ref) "http://" = true ∨
      py_startswith (py_lower ref) "https://" = true) →
      resolve_dataset ref ws = ref) ∧
    (os_isabs ref = false →
      py_startswith (py_lower ref) "http://" = false →
      py_startswith (py_lower ref) "https://" = false →
      resolve_dataset ref ws = os_join ws ref) := by
  constructor
  · intro h
    rw [resolve_dataset, if_pos h]
  · intro h1 h2 h3
    rw [resolve_dataset, if_neg]
    simp [h1, h2, h3]

/-- Witness for C4: an absolute path passes through; a bare name joins. -/
theorem c4_resolve_passthrough_or_join_witness :
    resolve_dataset "/data/parcels.gdb" "/ws" = "/data/parcels.gdb" ∧
    resolve_dataset "Parcels" "/ws" = os_join "/ws" "Parcels" :=
  ⟨(c4_resolve_passthrough_or_join "/data/parcels.gdb" "/ws").1
     (Or.inl (by decide)),
   (c4_resolve_passthrough_or_join "Parcels" "/ws").2
     (by decide) (by decide) (by decide)⟩

/-! ### Claims about the Pipeline Orchestrator -/

@[simp]
theorem of2_layerify_counts (expression pp sc so : String) (w : World) :
    (of2_layerify expression pp sc so w).counts = w.counts := by
  simp [of2_layerify]

@[simp]
theorem of2_layerify_mergeResultFields (expression pp sc so : String)
    (w : World) :
    (of2_layerify expression pp sc so w).mergeResultFields =
      w.mergeResultFields := by
  simp [of2_layerify]

@[simp]
theorem of2_layerify_mergeFails (expression pp sc so : String) (w : World) :
    (of2_layerify expression pp sc so w).mergeFails = w.mergeFails := by
  simp [of2_layerify]

@[simp]
theorem of2_layerify_envStack (expression pp sc so : String) (w : World) :
    (of2_layerify expression pp sc so w).envStack = w.envStack := by
  simp [of2_layerify]

theorem of2_layerify_log (expression pp sc so : String) (w : World) :
    (of2_layerify expression pp sc so w).log =
      w.log
        ++ (if arcpy_Exists w "parcels_layer"
            then [.deleteE "parcels_layer"] else [])
        ++ [.makeLayer pp "parcels_layer" expression]
        ++ (if arcpy_Exists w "storm_catchment_layer"
            then [.deleteE "storm_catchment_layer"] else [])
        ++ [.makeLayer sc "storm_catchment_layer" ""]
        ++ (if arcpy_Exists w "storm_cleanout_layer"
            then [.deleteE "storm_cleanout_layer"] else [])
        ++ [.makeLayer so "storm_cleanout_layer" ""] := by
  have hq1 : ("storm_catchment_layer" : String) ≠ "parcels_layer" := by decide
  have hq2 : ("storm_cleanout_layer" : String) ≠ "parcels_layer" := by decide
  have hq3 : ("storm_cleanout_layer" : String) ≠ "storm_catchment_layer" := by
    decide
  simp [of2_layerify, ensure_layer_log, exists_ensure_layer_ne, hq1, hq2, hq3,
    List.append_assoc]

theorem of2_layerify_exists_ne (expression pp sc so : String) (w : World)
    (r : String) (h1 : r ≠ "parcels_layer") (h2 : r ≠ "storm_catchment_layer")
    (h3 : r ≠ "storm_cleanout_layer") :
    arcpy_Exists (of2_layerify expression pp sc so w) r = arcpy_Exists w r := by
  simp [of2_layerify, exists_ensure_layer_ne, h1, h2, h3]

theorem of2_layerify_lookup_sc (expression pp sc so : String) (w : World)
    (h1 : sc ≠ "storm_catchment_layer") (h2 : sc ≠ "parcels_layer") :
    lookupF (of2_layerify expression pp sc so w).fields
      "storm_catchment_layer" = lookupF w.fields sc := by
  have hq : ("storm_catchment_layer" : String) ≠ "storm_cleanout_layer" := by
    decide
  rw [of2_layerify, lookupF_ensure_layer_ne _ _ _ _ _ hq,
    lookupF_ensure_layer_self _ _ _ _ h1, lookupF_ensure_layer_ne _ _ _ _ _ h2]

theorem of2_layerify_lookup_so (expression pp sc so : String) (w : World)
    (h1 : so ≠ "storm_cleanout_layer") (h2 : so ≠ "storm_catchment_layer")
    (h3 : so ≠ "parcels_layer") :
    lookupF (of2_layerify expression pp sc so w).fields
      "storm_cleanout_layer" = lookupF w.fields so := by
  rw [of2_layerify, lookupF_ensure_layer_self _ _ _ _ h1,
    lookupF_ensure_layer_ne _ _ _ _ _ h2, lookupF_ensure_layer_ne _ _ _ _ _ h3]

@[simp]
theorem of2_select_eq (w : World) :
    of2_select w =
      logEvent w (.selectByLocation
        ["storm_catchment_layer", "storm_cleanout_layer"] "INTERSECT"
        "parcels_layer" "NEW_SELECTION") := rfl

@[simp]
theorem of2_counts_eq (w : World) :
    of2_counts w =
      logEvent (logEvent (logEvent w (.getCountE "storm_catchment_layer"))
        (.getCountE "storm_cleanout_layer"))
        (.logInfo ("Selected "
          ++ toString (lookupCount w.counts "storm_catchment_layer")
          ++ " catchment and "
          ++ toString (lookupCount w.counts "storm_cleanout_layer")
          ++ " cleanout features")) := rfl

@[simp]
theorem ite_append_singleton {α : Type} {c : Prop} [Decidable c]
    (xs : List α) (a : α) :
    (if c then xs ++ [a] else xs) = xs ++ (if c then [a] else []) := by
  split <;> simp

@[simp]
theorem ite_shared_append {α : Type} {c : Prop} [Decidable c]
    (xs a b : List α) :
    (if c then xs ++ a else xs ++ b) = xs ++ (if c then a else b) := by
  split <;> rfl

theorem of2_finish_envStack (workspace_gdb output_fc : String) (w : World) :
    (of2_finish workspace_gdb output_fc w).2.envStack = w.envStack := by
  unfold of2_finish
  cases hb : build_field_mappings (lookupF w.fields)
      ["storm_catchment_layer", "storm_cleanout_layer"] with
  | error e => simp
  | ok fms =>
    dsimp only
    generalize (if os_dirname output_fc ≠ "" then output_fc
      else os_join workspace_gdb output_fc) = outp
    by_cases hex : arcpy_Exists w outp = true
    · cases hmf : w.mergeFails with
      | true => simp [arcpy_Merge, hex, hmf]
      | false => simp [arcpy_Merge, hex, hmf, lookupF_cons, apply_ite]
    · cases hmf : w.mergeFails with
      | true => simp [arcpy_Merge, hex, hmf]
      | false => simp [arcpy_Merge, hex, hmf, lookupF_cons, apply_ite]

theorem mem_of_contains_true {l : List String} {a : String}
    (h : l.contains a = true) : a ∈ l := contains_iff_mem.mp h

theorem not_mem_of_contains_false {l : List String} {a : String}
    (h : l.contains a = false) : a ∉ l := by
  intro hm
  rw [contains_iff_mem.mpr hm] at h
  exact Bool.noConfusion h

theorem of2_finish_log_extends (workspace_gdb output_fc : String) (w : World) :
    ∃ tr, (of2_finish workspace_gdb output_fc w).2.log = w.log ++ tr := by
  unfold of2_finish
  cases hb : build_field_mappings (lookupF w.fields)
      ["storm_catchment_layer", "storm_cleanout_layer"] with
  | error e => exact ⟨[], by simp⟩
  | ok fms =>
    dsimp only
    generalize (if os_dirname output_fc ≠ "" then output_fc
      else os_join workspace_gdb output_fc) = outp
    by_cases hex : arcpy_Exists w outp = true
    · have hw5 : (if arcpy_Exists w outp = true then arcpy_Delete w outp
          else w) = arcpy_Delete w outp := if_pos hex
      rw [hw5]
      cases hmf : w.mergeFails with
      | true =>
        exact ⟨[.deleteE outp,
          .mergeE ["storm_catchment_layer", "storm_cleanout_layer"] outp],
          by simp [arcpy_Merge, hmf, List.append_assoc]⟩
      | false =>
        rw [merge_of_ok (arcpy_Delete w outp) _ _ _ (by simp [hmf])]
        dsimp only
        split
        · exact ⟨[.deleteE outp,
            .mergeE ["storm_catchment_layer", "storm_cleanout_layer"] outp,
            .deleteIdenticalE outp ["OrigPlan"]],
            by simp [List.append_assoc]⟩
        · exact ⟨[.deleteE outp,
            .mergeE ["storm_catchment_layer", "storm_cleanout_layer"] outp,
            .logWarning
              "Field 'OrigPlan' not present in output; skipping DeleteIdentical"],
            by simp [List.append_assoc]⟩
    · have hw5 : (if arcpy_Exists w outp = true then arcpy_Delete w outp
          else w) = w := if_neg hex
      rw [hw5]
      cases hmf : w.mergeFails with
      | true =>
        exact ⟨[.mergeE ["storm_catchment_layer", "storm_cleanout_layer"] outp],
          by simp [arcpy_Merge, hmf, List.append_assoc]⟩
      | false =>
        rw [merge_of_ok w _ _ _ hmf]
        dsimp only
        split
        · exact ⟨[.mergeE ["storm_catchment_layer", "storm_cleanout_layer"] outp,
            .deleteIdenticalE outp ["OrigPlan"]],
            by simp [List.append_assoc]⟩
        · exact ⟨[.mergeE ["storm_catchment_layer", "storm_cleanout_layer"] outp,
            .logWarning
              "Field 'OrigPlan' not present in output; skipping DeleteIdentical"],
            by simp [List.append_assoc]⟩

theorem run_of2_body_envStack (expression ws storm_catchment storm_cleanout
    parcels output_fc : String) (w : World) :
    (run_of2_body expression ws storm_catchment storm_cleanout parcels
      output_fc w).2.envStack = w.envStack := by
  simp only [run_of2_body]
  split
  · rfl
  split
  · rfl
  split
  · rfl
  · rw [of2_finish_envStack]
    simp

theorem run_of2_body_log_extends (expression ws storm_catchment storm_cleanout
    parcels output_fc : String) (w : World) :
    ∃ tr, (run_of2_body expression ws storm_catchment storm_cleanout parcels
      output_fc w).2.log = w.log ++ tr := by
  simp only [run_of2_body]
  split
  · exact ⟨[], by simp⟩
  split
  · exact ⟨[], by simp⟩
  split
  · exact ⟨[], by simp⟩
  · obtain ⟨tr, htr⟩ := of2_finish_log_extends ws output_fc
      (of2_counts (of2_select (of2_layerify expression
        (resolve_dataset parcels ws) (resolve_dataset storm_catchment ws)
        (resolve_dataset storm_cleanout ws) w)))
    rw [htr]
    simp only [of2_counts_eq, of2_select_eq, logEvent_log, logEvent_counts,
      of2_layerify_counts, of2_layerify_log, List.append_assoc]
    exact ⟨_, rfl⟩

/-- Success-path characterisation of the merge/dedup tail of the pipeline:
when each desired field is on at least one storm layer and the engine's
merge succeeds, the tail returns the resolved output path, the output
dataset carries the engine-produced schema, and the trace shows the
conditional stale-output delete, the merge, and the dedup-or-warn step. -/
theorem of2_finish_spec (workspace_gdb output_fc : String) (w : World)
    (outp : String)
    (houtp : outp = if os_dirname output_fc ≠ "" then output_fc
      else os_join workspace_gdb output_fc)
    (hOP : "OrigPlan" ∈ lookupF w.fields "storm_catchment_layer" ∨
      "OrigPlan" ∈ lookupF w.fields "storm_cleanout_layer")
    (hDL : "DocLink" ∈ lookupF w.fields "storm_catchment_layer" ∨
      "DocLink" ∈ lookupF w.fields "storm_cleanout_layer")
    (hmf : w.mergeFails = false) :
    (of2_finish workspace_gdb output_fc w).1 = .ok outp ∧
    lookupF (of2_finish workspace_gdb output_fc w).2.fields outp =
      w.mergeResultFields ∧
    (of2_finish workspace_gdb output_fc w).2.log =
      w.log ++ (if arcpy_Exists w outp then [.deleteE outp] else [])
        ++ [.mergeE ["storm_catchment_layer", "storm_cleanout_layer"] outp]
        ++ (if w.mergeResultFields.contains "OrigPlan"
            then [.deleteIdenticalE outp ["OrigPlan"]]
            else [.logWarning
              "Field 'OrigPlan' not present in output; skipping DeleteIdentical"]) := by
  have hb1 : (["storm_catchment_layer", "storm_cleanout_layer"].any
      fun src => (lookupF w.fields src).contains "OrigPlan") = true := by
    rw [List.any_eq_true]
    rcases hOP with h | h
    · exact ⟨"storm_catchment_layer", by simp, contains_iff_mem.mpr h⟩
    · exact ⟨"storm_cleanout_layer", by simp, contains_iff_mem.mpr h⟩
  have hb2 : (["storm_catchment_layer", "storm_cleanout_layer"].any
      fun src => (lookupF w.fields src).contains "DocLink") = true := by
    rw [List.any_eq_true]
    rcases hDL with h | h
    · exact ⟨"storm_catchment_layer", by simp, contains_iff_mem.mpr h⟩
    · exact ⟨"storm_cleanout_layer", by simp, contains_iff_mem.mpr h⟩
  have hok := build_field_mappings_eq (lookupF w.fields)
    ["storm_catchment_layer", "storm_cleanout_layer"]
  rw [hb1, hb2] at hok
  simp only [Bool.true_eq_false, if_false] at hok
  unfold of2_finish
  rw [hok]
  dsimp only
  rw [← houtp]
  by_cases hex : arcpy_Exists w outp = true
  · rw [if_pos hex, merge_of_ok (arcpy_Delete w outp) _ _ _ (by simp [hmf])]
    dsimp only
    have hcond : lookupF
        ((outp, (arcpy_Delete w outp).mergeResultFields) ::
          (arcpy_Delete w outp).fields) outp =
        w.mergeResultFields := by
      rw [lookupF_cons, if_pos rfl]
      rfl
    rw [hcond]
    cases hde : w.mergeResultFields.contains "OrigPlan" with
    | true =>
      refine ⟨rfl, ?_, ?_⟩ <;>
        simp [hde, hex, hcond, lookupF_cons, List.append_assoc]
    | false =>
      refine ⟨rfl, ?_, ?_⟩ <;>
        simp [hde, hex, hcond, lookupF_cons, List.append_assoc]
  · rw [if_neg hex, merge_of_ok w _ _ _ hmf]
    dsimp only
    have hcond : lookupF ((outp, w.mergeResultFields) :: w.fields) outp =
        w.mergeResultFields := by
      rw [lookupF_cons, if_pos rfl]
    rw [hcond]
    cases hde : w.mergeResultFields.contains "OrigPlan" with
    | true =>
      refine ⟨rfl, ?_, ?_⟩ <;>
        simp [hde, hex, hcond, lookupF_cons, List.append_assoc]
    | false =>
      refine ⟨rfl, ?_, ?_⟩ <;>
        simp [hde, hex, hcond, lookupF_cons, List.append_assoc]

/-- Success-path characterisation of the body of `run_of2`: all three
inputs exist, each desired field is on at least one storm source, and the
engine merge succeeds. -/
theorem run_of2_body_success_spec
    (expression ws storm_catchment storm_cleanout parcels output_fc : String)
    (w : World) (pp sc so outp : String)
    (hpp : pp = resolve_dataset parcels ws)
    (hsc : sc = resolve_dataset storm_catchment ws)
    (hso : so = resolve_dataset storm_cleanout ws)
    (houtp : outp = if os_dirname output_fc ≠ "" then output_fc
      else os_join ws output_fc)
    (hex1 : arcpy_Exists w pp = true)
    (hex2 : arcpy_Exists w sc = true)
    (hex3 : arcpy_Exists w so = true)
    (hsc1 : sc ≠ "storm_catchment_layer") (hsc2 : sc ≠ "parcels_layer")
    (hso1 : so ≠ "storm_cleanout_layer") (hso2 : so ≠ "storm_catchment_layer")
    (hso3 : so ≠ "parcels_layer")
    (hno1 : outp ≠ "parcels_layer") (hno2 : outp ≠ "storm_catchment_layer")
    (hno3 : outp ≠ "storm_cleanout_layer")
    (hOP : "OrigPlan" ∈ lookupF w.fields sc ∨ "OrigPlan" ∈ lookupF w.fields so)
    (hDL : "DocLink" ∈ lookupF w.fields sc ∨ "DocLink" ∈ lookupF w.fields so)
    (hmf : w.mergeFails = false) :
    (run_of2_body expression ws storm_catchment storm_cleanout parcels
      output_fc w).1 = .ok outp ∧
    lookupF (run_of2_body expression ws storm_catchment storm_cleanout parcels
      output_fc w).2.fields outp = w.mergeResultFields ∧
    (run_of2_body expression ws storm_catchment storm_cleanout parcels
      output_fc w).2.log =
      w.log
        ++ (if arcpy_Exists w "parcels_layer"
            then [.deleteE "parcels_layer"] else [])
        ++ [.makeLayer pp "parcels_layer" expression]
        ++ (if arcpy_Exists w "storm_catchment_layer"
            then [.deleteE "storm_catchment_layer"] else [])
        ++ [.makeLayer sc "storm_catchment_layer" ""]
        ++ (if arcpy_Exists w "storm_cleanout_layer"
            then [.deleteE "storm_cleanout_layer"] else [])
        ++ [.makeLayer so "storm_cleanout_layer" ""]
        ++ [.selectByLocation ["storm_catchment_layer", "storm_cleanout_layer"]
              "INTERSECT" "parcels_layer" "NEW_SELECTION",
            .getCountE "storm_catchment_layer",
            .getCountE "storm_cleanout_layer",
            .logInfo ("Selected "
              ++ toString (lookupCount w.counts "storm_catchment_layer")
              ++ " catchment and "
              ++ toString (lookupCount w.counts "storm_cleanout_layer")
              ++ " cleanout features")]
        ++ (if arcpy_Exists w outp then [.deleteE outp] else [])
        ++ [.mergeE ["storm_catchment_layer", "storm_cleanout_layer"] outp]
        ++ (if w.mergeResultFields.contains "OrigPlan"
            then [.deleteIdenticalE outp ["OrigPlan"]]
            else [.logWarning
              "Field 'OrigPlan' not present in output; skipping DeleteIdentical"]) := by
  subst hpp
  subst hsc
  subst hso
  simp only [run_of2_body, hex1, hex2, hex3, Bool.true_eq_false, if_false]
  set v := of2_counts (of2_select (of2_layerify expression
    (resolve_dataset parcels ws) (resolve_dataset storm_catchment ws)
    (resolve_dataset storm_cleanout ws) w)) with hv
  have hlooksc : lookupF v.fields "storm_catchment_layer" =
      lookupF w.fields (resolve_dataset storm_catchment ws) := by
    rw [hv]
    simp only [of2_counts_eq, of2_select_eq, logEvent_fields]
    exact of2_layerify_lookup_sc _ _ _ _ _ hsc1 hsc2
  have hlookso : lookupF v.fields "storm_cleanout_layer" =
      lookupF w.fields (resolve_dataset storm_cleanout ws) := by
    rw [hv]
    simp only [of2_counts_eq, of2_select_eq, logEvent_fields]
    exact of2_layerify_lookup_so _ _ _ _ _ hso1 hso2 hso3
  have hvex : arcpy_Exists v outp = arcpy_Exists w outp := by
    rw [hv]
    simp only [of2_counts_eq, of2_select_eq, exists_logEvent]
    exact of2_layerify_exists_ne _ _ _ _ _ _ hno1 hno2 hno3
  have hvmf : v.mergeFails = false := by
    rw [hv]
    simp [hmf]
  have hvmrf : v.mergeResultFields = w.mergeResultFields := by
    rw [hv]
    simp
  have hvlog : v.log = w.log
      ++ (if arcpy_Exists w "parcels_layer"
          then [.deleteE "parcels_layer"] else [])
      ++ [.makeLayer (resolve_dataset parcels ws) "parcels_layer" expression]
      ++ (if arcpy_Exists w "storm_catchment_layer"
          then [.deleteE "storm_catchment_layer"] else [])
      ++ [.makeLayer (resolve_dataset storm_catchment ws)
            "storm_catchment_layer" ""]
      ++ (if arcpy_Exists w "storm_cleanout_layer"
          then [.deleteE "storm_cleanout_layer"] else [])
      ++ [.makeLayer (resolve_dataset storm_cleanout ws)
            "storm_cleanout_layer" ""]
      ++ [.selectByLocation ["storm_catchment_layer", "storm_cleanout_layer"]
            "INTERSECT" "parcels_layer" "NEW_SELECTION",
          .getCountE "storm_catchment_layer",
          .getCountE "storm_cleanout_layer",
          .logInfo ("Selected "
            ++ toString (lookupCount w.counts "storm_catchment_layer")
            ++ " catchment and "
            ++ toString (lookupCount w.counts "storm_cleanout_layer")
            ++ " cleanout features")] := by
    rw [hv]
    simp only [of2_counts_eq, of2_select_eq, logEvent_log, logEvent_counts,
      of2_layerify_counts, of2_layerify_log, List.append_assoc]
    simp [List.append_assoc]
  obtain ⟨f1, f2, f3⟩ := of2_finish_spec ws output_fc v outp houtp
    (by rw [hlooksc, hlookso]; exact hOP)
    (by rw [hlooksc, hlookso]; exact hDL) hvmf
  refine ⟨f1, ?_, ?_⟩
  · rw [f2, hvmrf]
  · rw [f3, hvex, hvmrf, hvlog]

/-- Success-path characterisation of a whole `run_of2` run: result,
output-dataset schema, and the full trace. -/
theorem run_of2_success_spec (expression workspace_gdb storm_catchment
    storm_cleanout parcels output_fc : String) (scratch_gdb : Option String)
    (w : World) (ws pp sc so outp : String)
    (hws : ws = os_abspath w.cwd workspace_gdb)
    (hpp : pp = resolve_dataset parcels ws)
    (hsc : sc = resolve_dataset storm_catchment ws)
    (hso : so = resolve_dataset storm_cleanout ws)
    (houtp : outp = if os_dirname output_fc ≠ "" then output_fc
      else os_join ws output_fc)
    (hex1 : arcpy_Exists w pp = true)
    (hex2 : arcpy_Exists w sc = true)
    (hex3 : arcpy_Exists w so = true)
    (hsc1 : sc ≠ "storm_catchment_layer") (hsc2 : sc ≠ "parcels_layer")
    (hso1 : so ≠ "storm_cleanout_layer") (hso2 : so ≠ "storm_catchment_layer")
    (hso3 : so ≠ "parcels_layer")
    (hno1 : outp ≠ "parcels_layer") (hno2 : outp ≠ "storm_catchment_layer")
    (hno3 : outp ≠ "storm_cleanout_layer")
    (hOP : "OrigPlan" ∈ lookupF w.fields sc ∨ "OrigPlan" ∈ lookupF w.fields so)
    (hDL : "DocLink" ∈ lookupF w.fields sc ∨ "DocLink" ∈ lookupF w.fields so)
    (hmf : w.mergeFails = false) :
    (run_of2 expression workspace_gdb storm_catchment storm_cleanout parcels
      output_fc scratch_gdb w).1 = .ok outp ∧
    lookupF (run_of2 expression workspace_gdb storm_catchment storm_cleanout
      parcels output_fc scratch_gdb w).2.fields outp = w.mergeResultFields ∧
    (run_of2 expression workspace_gdb storm_catchment storm_cleanout parcels
      output_fc scratch_gdb w).2.log =
      w.log
        ++ [.envEnter
              { workspace := ws,
                scratchWorkspace :=
                  (match scratch_gdb with
                   | some s => if s = "" then ws else os_abspath w.cwd s
                   | none => ws),
                overwriteOutput := true,
                parallelProcessingFactor := "100%" }]
        ++ (if arcpy_Exists w "parcels_layer"
            then [.deleteE "parcels_layer"] else [])
        ++ [.makeLayer pp "parcels_layer" expression]
        ++ (if arcpy_Exists w "storm_catchment_layer"
            then [.deleteE "storm_catchment_layer"] else [])
        ++ [.makeLayer sc "storm_catchment_layer" ""]
        ++ (if arcpy_Exists w "storm_cleanout_layer"
            then [.deleteE "storm_cleanout_layer"] else [])
        ++ [.makeLayer so "storm_cleanout_layer" ""]
        ++ [.selectByLocation ["storm_catchment_layer", "storm_cleanout_layer"]
              "INTERSECT" "parcels_layer" "NEW_SELECTION",
            .getCountE "storm_catchment_layer",
            .getCountE "storm_cleanout_layer",
            .logInfo ("Selected "
              ++ toString (lookupCount w.counts "storm_catchment_layer")
              ++ " catchment and "
              ++ toString (lookupCount w.counts "storm_cleanout_layer")
              ++ " cleanout features")]
        ++ (if arcpy_Exists w outp then [.deleteE outp] else [])
        ++ [.mergeE ["storm_catchment_layer", "storm_cleanout_layer"] outp]
        ++ (if w.mergeResultFields.contains "OrigPlan"
            then [.deleteIdenticalE outp ["OrigPlan"]]
            else [.logWarning
              "Field 'OrigPlan' not present in output; skipping DeleteIdentical"])
        ++ [.envExit] := by
  subst hws
  obtain ⟨b1, b2, b3⟩ := run_of2_body_success_spec expression
    (os_abspath w.cwd workspace_gdb) storm_catchment storm_cleanout parcels
    output_fc
    { w with envStack := { workspace := os_abspath w.cwd workspace_gdb,
                           scratchWorkspace :=
                             match scratch_gdb with
                             | some s => if s = "" then
                                 os_abspath w.cwd workspace_gdb
                               else os_abspath w.cwd s
                             | none => os_abspath w.cwd workspace_gdb,
                           overwriteOutput := true,
                           parallelProcessingFactor := "100%" } :: w.envStack,
             log := w.log ++ [.envEnter
               { workspace := os_abspath w.cwd workspace_gdb,
                 scratchWorkspace :=
                   match scratch_gdb with
                   | some s => if s = "" then os_abspath w.cwd workspace_gdb
                     else os_abspath w.cwd s
                   | none => os_abspath w.cwd workspace_gdb,
                 overwriteOutput := true,
                 parallelProcessingFactor := "100%" }] }
    pp sc so outp hpp hsc hso houtp hex1 hex2 hex3 hsc1 hsc2 hso1 hso2 hso3
    hno1 hno2 hno3 hOP hDL hmf
  refine ⟨?_, ?_, ?_⟩
  · simp only [run_of2]
    exact b1
  · simp only [run_of2]
    exact b2
  · simp only [run_of2]
    rw [b3]
    simp [arcpy_Exists, List.append_assoc]

/-- Whenever validation passes, the body's trace begins with the three
layer creations — each preceded by a delete exactly when a stale layer of
that name pre-exists — regardless of how the rest of the pipeline ends. -/
theorem run_of2_body_layerify_prefix
    (expression ws storm_catchment storm_cleanout parcels output_fc : String)
    (w : World) (pp sc so : String)
    (hpp : pp = resolve_dataset parcels ws)
    (hsc : sc = resolve_dataset storm_catchment ws)
    (hso : so = resolve_dataset storm_cleanout ws)
    (hex1 : arcpy_Exists w pp = true)
    (hex2 : arcpy_Exists w sc = true)
    (hex3 : arcpy_Exists w so = true) :
    ∃ rest, (run_of2_body expression ws storm_catchment storm_cleanout parcels
      output_fc w).2.log =
      w.log
        ++ (if arcpy_Exists w "parcels_layer"
            then [.deleteE "parcels_layer"] else [])
        ++ [.makeLayer pp "parcels_layer" expression]
        ++ (if arcpy_Exists w "storm_catchment_layer"
            then [.deleteE "storm_catchment_layer"] else [])
        ++ [.makeLayer sc "storm_catchment_layer" ""]
        ++ (if arcpy_Exists w "storm_cleanout_layer"
            then [.deleteE "storm_cleanout_layer"] else [])
        ++ [.makeLayer so "storm_cleanout_layer" ""]
        ++ rest := by
  subst hpp
  subst hsc
  subst hso
  simp only [run_of2_body, hex1, hex2, hex3, Bool.true_eq_false, if_false]
  set v := of2_counts (of2_select (of2_layerify expression
    (resolve_dataset parcels ws) (resolve_dataset storm_catchment ws)
    (resolve_dataset storm_cleanout ws) w)) with hv
  obtain ⟨tr, htr⟩ := of2_finish_log_extends ws output_fc v
  refine ⟨[.selectByLocation ["storm_catchment_layer", "storm_cleanout_layer"]
      "INTERSECT" "parcels_layer" "NEW_SELECTION",
    .getCountE "storm_catchment_layer",
    .getCountE "storm_cleanout_layer",
    .logInfo ("Selected "
      ++ toString (lookupCount w.counts "storm_catchment_layer")
      ++ " catchment and "
      ++ toString (lookupCount w.counts "storm_cleanout_layer")
      ++ " cleanout features")] ++ tr, ?_⟩
  rw [htr, hv]
  simp only [of2_counts_eq, of2_select_eq, logEvent_log, logEvent_counts,
    of2_layerify_counts, of2_layerify_log, List.append_assoc]
  simp [List.append_assoc]

/-- C9: the scoped execution context established at the start of `run_of2`
is torn down on every exit path — the environment stack is restored to its
pre-run state no matter how the run ends, and the run's trace opens with
the context acquisition and closes with its release. -/
theorem c9_env_scope_released (expression workspace_gdb storm_catchment
    storm_cleanout parcels output_fc : String) (scratch_gdb : Option String)
    (w : World) :
    (run_of2 expression workspace_gdb storm_catchment storm_cleanout parcels
      output_fc scratch_gdb w).2.envStack = w.envStack ∧
    ∃ (env : ArcEnv) (tr : List Event),
      (run_of2 expression workspace_gdb storm_catchment storm_cleanout parcels
        output_fc scratch_gdb w).2.log =
        w.log ++ [.envEnter env] ++ tr ++ [.envExit] ∧
      env.overwriteOutput = true ∧
      env.parallelProcessingFactor = "100%" ∧
      env.workspace = os_abspath w.cwd workspace_gdb := by
  simp only [run_of2]
  constructor
  · rw [run_of2_body_envStack]
    rfl
  · obtain ⟨tr, htr⟩ := run_of2_body_log_extends expression
      (os_abspath w.cwd workspace_gdb) storm_catchment storm_cleanout parcels
      output_fc
      { w with envStack := { workspace := os_abspath w.cwd workspace_gdb,
                             scratchWorkspace :=
                               match scratch_gdb with
                               | some s => if s = "" then
                                   os_abspath w.cwd workspace_gdb
                                 else os_abspath w.cwd s
                               | none => os_abspath w.cwd workspace_gdb,
                             overwriteOutput := true,
                             parallelProcessingFactor := "100%" } :: w.envStack,
               log := w.log ++ [.envEnter
                 { workspace := os_abspath w.cwd workspace_gdb,
                   scratchWorkspace :=
                     match scratch_gdb with
                     | some s => if s = "" then os_abspath w.cwd workspace_gdb
                       else os_abspath w.cwd s
                     | none => os_abspath w.cwd workspace_gdb,
                   overwriteOutput := true,
                   parallelProcessingFactor := "100%" }] }
    exact ⟨_, tr, by rw [htr]; try simp [List.append_assoc], rfl, rfl, rfl⟩

/-- C6: validation resolves the three input references and checks their
existence in parcels → catchment → cleanout order; the first reference the
store reports as missing aborts the run with a `DatasetNotFound`-style
error naming the offending dataset and its resolved path. -/
theorem c6_validation_order (expression workspace_gdb storm_catchment
    storm_cleanout parcels output_fc : String) (scratch_gdb : Option String)
    (w : World) (ws pp sc so : String)
    (hws : ws = os_abspath w.cwd workspace_gdb)
    (hpp : pp = resolve_dataset parcels ws)
    (hsc : sc = resolve_dataset storm_catchment ws)
    (hso : so = resolve_dataset storm_cleanout ws) :
    (arcpy_Exists w pp = false →
      (run_of2 expression workspace_gdb storm_catchment storm_cleanout parcels
        output_fc scratch_gdb w).1 =
        .error (.datasetNotFound "Parcels" pp)) ∧
    (arcpy_Exists w pp = true → arcpy_Exists w sc = false →
      (run_of2 expression workspace_gdb storm_catchment storm_cleanout parcels
        output_fc scratch_gdb w).1 =
        .error (.datasetNotFound "Storm Catchment" sc)) ∧
    (arcpy_Exists w pp = true → arcpy_Exists w sc = true →
      arcpy_Exists w so = false →
      (run_of2 expression workspace_gdb storm_catchment storm_cleanout parcels
        output_fc scratch_gdb w).1 =
        .error (.datasetNotFound "Storm Cleanout" so)) := by
  subst hws
  subst hpp
  subst hsc
  subst hso
  refine ⟨?_, ?_, ?_⟩
  · intro h1
    have h1' := not_mem_of_contains_false h1
    simp [run_of2, run_of2_body, arcpy_Exists, h1']
  · intro h1 h2
    have h1' := mem_of_contains_true h1
    have h2' := not_mem_of_contains_false h2
    simp [run_of2, run_of2_body, arcpy_Exists, h1', h2']
  · intro h1 h2 h3
    have h1' := mem_of_contains_true h1
    have h2' := mem_of_contains_true h2
    have h3' := not_mem_of_contains_false h3
    simp [run_of2, run_of2_body, arcpy_Exists, h1', h2', h3']

/-- Witness for C6: an empty store is missing the parcels dataset, which
is the first one reported. -/
theorem c6_validation_order_witness :
    (run_of2 "PARCEL_NUMBER = '1'" "/gdb" "SC" "SO" "Parcels" "out" none
      { cwd := "/cw", existing := [], fields := [], counts := [],
        mergeResultFields := [], mergeFails := false, envStack := [],
        log := [] }).1 =
      .error (.datasetNotFound "Parcels" "/gdb/Parcels") :=
  (c6_validation_order "PARCEL_NUMBER = '1'" "/gdb" "SC" "SO" "Parcels" "out"
    none _ "/gdb" "/gdb/Parcels" "/gdb/SC" "/gdb/SO" rfl rfl rfl rfl).1
    (by decide)

/-- C10: the URL pass-through test is case-insensitive — a non-absolute
reference whose lowercased form begins with `http://` or `https://` is
returned unchanged, while any reference with a different scheme prefix is
treated as a bare name and joined to the workspace root. -/
theorem c10_url_case_insensitive (ref ws : String) :
    (os_isabs ref = false →
      (py_startswith (py_lower ref) "http://" = true ∨
       py_startswith (py_lower ref) "https://" = true) →
      resolve_dataset ref ws = ref) ∧
    (os_isabs ref = false →
      py_startswith (py_lower ref) "http://" = false →
      py_startswith (py_lower ref) "https://" = false →
      resolve_dataset ref ws = os_join ws ref) := by
  constructor
  · intro _ h
    rw [resolve_dataset, if_pos]
    rcases h with h | h
    · exact Or.inr (Or.inl h)
    · exact Or.inr (Or.inr h)
  · intro h1 h2 h3
    rw [resolve_dataset, if_neg]
    simp [h1, h2, h3]

/-- Witness for C10: `HTTPS://host/fc` passes through unchanged, while
`ftp://host/fc` is joined to the workspace root. -/
theorem c10_url_case_insensitive_witness :
    resolve_dataset "HTTPS://host/fc" "/ws" = "HTTPS://host/fc" ∧
    resolve_dataset "ftp://host/fc" "/ws" = os_join "/ws" "ftp://host/fc" :=
  ⟨(c10_url_case_insensitive "HTTPS://host/fc" "/ws").1 (by decide)
     (Or.inr (by decide)),
   (c10_url_case_insensitive "ftp://host/fc" "/ws").2
     (by decide) (by decide) (by decide)⟩

/-- C8: once validation passes, the trace shows each of the three layer
creations preceded by a delete of the same-named layer exactly when one
pre-exists, in parcels → catchment → cleanout order; the parcels layer is
created with the attribute predicate as its filter, the storm layers
unfiltered — whatever happens in the rest of the run. -/
theorem c8_layer_recreation (expression workspace_gdb storm_catchment
    storm_cleanout parcels output_fc : String) (scratch_gdb : Option String)
    (w : World) (ws pp sc so : String)
    (hws : ws = os_abspath w.cwd workspace_gdb)
    (hpp : pp = resolve_dataset parcels ws)
    (hsc : sc = resolve_dataset storm_catchment ws)
    (hso : so = resolve_dataset storm_cleanout ws)
    (hex1 : arcpy_Exists w pp = true)
    (hex2 : arcpy_Exists w sc = true)
    (hex3 : arcpy_Exists w so = true) :
    ∃ (env : ArcEnv) (rest : List Event),
      (run_of2 expression workspace_gdb storm_catchment storm_cleanout parcels
        output_fc scratch_gdb w).2.log =
        w.log ++ [.envEnter env]
          ++ (if arcpy_Exists w "parcels_layer"
              then [.deleteE "parcels_layer"] else [])
          ++ [.makeLayer pp "parcels_layer" expression]
          ++ (if arcpy_Exists w "storm_catchment_layer"
              then [.deleteE "storm_catchment_layer"] else [])
          ++ [.makeLayer sc "storm_catchment_layer" ""]
          ++ (if arcpy_Exists w "storm_cleanout_layer"
              then [.deleteE "storm_cleanout_layer"] else [])
          ++ [.makeLayer so "storm_cleanout_layer" ""]
          ++ rest := by
  subst hws
  simp only [run_of2]
  obtain ⟨rest, hrest⟩ := run_of2_body_layerify_prefix expression
    (os_abspath w.cwd workspace_gdb) storm_catchment storm_cleanout parcels
    output_fc
    { w with envStack := { workspace := os_abspath w.cwd workspace_gdb,
                           scratchWorkspace :=
                             match scratch_gdb with
                             | some s => if s = "" then
                                 os_abspath w.cwd workspace_gdb
                               else os_abspath w.cwd s
                             | none => os_abspath w.cwd workspace_gdb,
                           overwriteOutput := true,
                           parallelProcessingFactor := "100%" } :: w.envStack,
             log := w.log ++ [.envEnter
               { workspace := os_abspath w.cwd workspace_gdb,
                 scratchWorkspace :=
                   match scratch_gdb with
                   | some s => if s = "" then os_abspath w.cwd workspace_gdb
                     else os_abspath w.cwd s
                   | none => os_abspath w.cwd workspace_gdb,
                 overwriteOutput := true,
                 parallelProcessingFactor := "100%" }] }
    pp sc so hpp hsc hso hex1 hex2 hex3
  refine ⟨{ workspace := os_abspath w.cwd workspace_gdb,
            scratchWorkspace :=
              (match scratch_gdb with
               | some s => if s = "" then os_abspath w.cwd workspace_gdb
                 else os_abspath w.cwd s
               | none => os_abspath w.cwd workspace_gdb),
            overwriteOutput := true,
            parallelProcessingFactor := "100%" }, rest ++ [.envExit], ?_⟩
  rw [hrest]
  simp [arcpy_Exists, List.append_assoc]
  cases scratch_gdb <;> rfl

/-- Witness for C8: a store holding the three datasets and a stale
`parcels_layer` from a prior run. -/
theorem c8_layer_recreation_witness :
    ∃ (env : ArcEnv) (rest : List Event),
      (run_of2 "PN = '1'" "/gdb" "SC" "SO" "Parcels" "out" none
        { cwd := "/cw",
          existing := ["/gdb/Parcels", "/gdb/SC", "/gdb/SO", "parcels_layer"],
          fields := [("/gdb/SC", ["OrigPlan", "DocLink"]),
                     ("/gdb/SO", ["DocLink"])],
          counts := [], mergeResultFields := ["OrigPlan", "DocLink"],
          mergeFails := false, envStack := [], log := [] }).2.log =
        [] ++ [.envEnter env]
          ++ (if arcpy_Exists
                { cwd := "/cw",
                  existing := ["/gdb/Parcels", "/gdb/SC", "/gdb/SO",
                    "parcels_layer"],
                  fields := [("/gdb/SC", ["OrigPlan", "DocLink"]),
                             ("/gdb/SO", ["DocLink"])],
                  counts := [], mergeResultFields := ["OrigPlan", "DocLink"],
                  mergeFails := false, envStack := [], log := [] }
                "parcels_layer"
              then [.deleteE "parcels_layer"] else [])
          ++ [.makeLayer "/gdb/Parcels" "parcels_layer" "PN = '1'"]
          ++ (if arcpy_Exists
                { cwd := "/cw",
                  existing := ["/gdb/Parcels", "/gdb/SC", "/gdb/SO",
                    "parcels_layer"],
                  fields := [("/gdb/SC", ["OrigPlan", "DocLink"]),
                             ("/gdb/SO", ["DocLink"])],
                  counts := [], mergeResultFields := ["OrigPlan", "DocLink"],
                  mergeFails := false, envStack := [], log := [] }
                "storm_catchment_layer"
              then [.deleteE "storm_catchment_layer"] else [])
          ++ [.makeLayer "/gdb/SC" "storm_catchment_layer" ""]
          ++ (if arcpy_Exists
                { cwd := "/cw",
                  existing := ["/gdb/Parcels", "/gdb/SC", "/gdb/SO",
                    "parcels_layer"],
                  fields := [("/gdb/SC", ["OrigPlan", "DocLink"]),
                             ("/gdb/SO", ["DocLink"])],
                  counts := [], mergeResultFields := ["OrigPlan", "DocLink"],
                  mergeFails := false, envStack := [], log := [] }
                "storm_cleanout_layer"
              then [.deleteE "storm_cleanout_layer"] else [])
          ++ [.makeLayer "/gdb/SO" "storm_cleanout_layer" ""]
          ++ rest :=
  c8_layer_recreation "PN = '1'" "/gdb" "SC" "SO" "Parcels" "out" none _
    "/gdb" "/gdb/Parcels" "/gdb/SC" "/gdb/SO" rfl rfl rfl rfl
    (by decide) (by decide) (by decide)

/-- C5: with the dedup key present in the engine's merge-output schema,
`DeleteIdentical` is invoked on exactly `OrigPlan`; with it absent, the
run logs the warning instead, never invokes `DeleteIdentical`, and still
returns the output reference successfully. -/
theorem c5_dedup_or_skip (expression workspace_gdb storm_catchment
    storm_cleanout parcels output_fc : String) (scratch_gdb : Option String)
    (w : World) (ws pp sc so outp : String)
    (hws : ws = os_abspath w.cwd workspace_gdb)
    (hpp : pp = resolve_dataset parcels ws)
    (hsc : sc = resolve_dataset storm_catchment ws)
    (hso : so = resolve_dataset storm_cleanout ws)
    (houtp : outp = if os_dirname output_fc ≠ "" then output_fc
      else os_join ws output_fc)
    (hex1 : arcpy_Exists w pp = true)
    (hex2 : arcpy_Exists w sc = true)
    (hex3 : arcpy_Exists w so = true)
    (hsc1 : sc ≠ "storm_catchment_layer") (hsc2 : sc ≠ "parcels_layer")
    (hso1 : so ≠ "storm_cleanout_layer") (hso2 : so ≠ "storm_catchment_layer")
    (hso3 : so ≠ "parcels_layer")
    (hno1 : outp ≠ "parcels_layer") (hno2 : outp ≠ "storm_catchment_layer")
    (hno3 : outp ≠ "storm_cleanout_layer")
    (hOP : "OrigPlan" ∈ lookupF w.fields sc ∨ "OrigPlan" ∈ lookupF w.fields so)
    (hDL : "DocLink" ∈ lookupF w.fields sc ∨ "DocLink" ∈ lookupF w.fields so)
    (hmf : w.mergeFails = false)
    (hlog : w.log = []) :
    (run_of2 expression workspace_gdb storm_catchment storm_cleanout parcels
      output_fc scratch_gdb w).1 = .ok outp ∧
    ("OrigPlan" ∈ w.mergeResultFields →
      Event.deleteIdenticalE outp ["OrigPlan"] ∈
        (run_of2 expression workspace_gdb storm_catchment storm_cleanout
          parcels output_fc scratch_gdb w).2.log) ∧
    ("OrigPlan" ∉ w.mergeResultFields →
      Event.logWarning
          "Field 'OrigPlan' not present in output; skipping DeleteIdentical" ∈
        (run_of2 expression workspace_gdb storm_catchment storm_cleanout
          parcels output_fc scratch_gdb w).2.log ∧
      Event.deleteIdenticalE outp ["OrigPlan"] ∉
        (run_of2 expression workspace_gdb storm_catchment storm_cleanout
          parcels output_fc scratch_gdb w).2.log) := by
  obtain ⟨r1, r2, r3⟩ := run_of2_success_spec expression workspace_gdb
    storm_catchment storm_cleanout parcels output_fc scratch_gdb w ws pp sc so
    outp hws hpp hsc hso houtp hex1 hex2 hex3 hsc1 hsc2 hso1 hso2 hso3 hno1
    hno2 hno3 hOP hDL hmf
  refine ⟨r1, ?_, ?_⟩
  · intro h
    rw [r3]
    simp [h]
  · intro h
    constructor
    · rw [r3]
      simp [h]
    · rw [r3, hlog]
      by_cases h1 : arcpy_Exists w "parcels_layer" = true <;>
        by_cases h2 : arcpy_Exists w "storm_catchment_layer" = true <;>
          by_cases h3 : arcpy_Exists w "storm_cleanout_layer" = true <;>
            by_cases h4 : arcpy_Exists w outp = true <;>
              simp [h1, h2, h3, h4, h]

/-- Witness for C5, in both modes: with `OrigPlan` in the engine's output
schema the dedup call appears; with it absent, the warning appears and the
dedup call does not, yet the run still succeeds. -/
theorem c5_dedup_or_skip_witness :
    ((run_of2 "E" "/gdb" "SC" "SO" "Parcels" "out" none
      { cwd := "/cw", existing := ["/gdb/Parcels", "/gdb/SC", "/gdb/SO"],
        fields := [("/gdb/SC", ["OrigPlan", "DocLink"]),
                   ("/gdb/SO", ["DocLink"])],
        counts := [], mergeResultFields := ["OrigPlan", "DocLink"],
        mergeFails := false, envStack := [], log := [] }).1 =
      .ok "/gdb/out" ∧
    ("OrigPlan" ∈ (["OrigPlan", "DocLink"] : List String) →
      Event.deleteIdenticalE "/gdb/out" ["OrigPlan"] ∈
        (run_of2 "E" "/gdb" "SC" "SO" "Parcels" "out" none
          { cwd := "/cw", existing := ["/gdb/Parcels", "/gdb/SC", "/gdb/SO"],
            fields := [("/gdb/SC", ["OrigPlan", "DocLink"]),
                       ("/gdb/SO", ["DocLink"])],
            counts := [], mergeResultFields := ["OrigPlan", "DocLink"],
            mergeFails := false, envStack := [], log := [] }).2.log) ∧
    ("OrigPlan" ∉ (["OrigPlan", "DocLink"] : List String) →
      Event.logWarning
          "Field 'OrigPlan' not present in output; skipping DeleteIdentical" ∈
        (run_of2 "E" "/gdb" "SC" "SO" "Parcels" "out" none
          { cwd := "/cw", existing := ["/gdb/Parcels", "/gdb/SC", "/gdb/SO"],
            fields := [("/gdb/SC", ["OrigPlan", "DocLink"]),
                       ("/gdb/SO", ["DocLink"])],
            counts := [], mergeResultFields := ["OrigPlan", "DocLink"],
            mergeFails := false, envStack := [], log := [] }).2.log ∧
      Event.deleteIdenticalE "/gdb/out" ["OrigPlan"] ∉
        (run_of2 "E" "/gdb" "SC" "SO" "Parcels" "out" none
          { cwd := "/cw", existing := ["/gdb/Parcels", "/gdb/SC", "/gdb/SO"],
            fields := [("/gdb/SC", ["OrigPlan", "DocLink"]),
                       ("/gdb/SO", ["DocLink"])],
            counts := [], mergeResultFields := ["OrigPlan", "DocLink"],
            mergeFails := false, envStack := [], log := [] }).2.log)) ∧
    ((run_of2 "E" "/gdb" "SC" "SO" "Parcels" "out" none
      { cwd := "/cw", existing := ["/gdb/Parcels", "/gdb/SC", "/gdb/SO"],
        fields := [("/gdb/SC", ["OrigPlan", "DocLink"]),
                   ("/gdb/SO", ["DocLink"])],
        counts := [], mergeResultFields := ["DocLink"],
        mergeFails := false, envStack := [], log := [] }).1 =
      .ok "/gdb/out" ∧
    ("OrigPlan" ∈ (["DocLink"] : List String) →
      Event.deleteIdenticalE "/gdb/out" ["OrigPlan"] ∈
        (run_of2 "E" "/gdb" "SC" "SO" "Parcels" "out" none
          { cwd := "/cw", existing := ["/gdb/Parcels", "/gdb/SC", "/gdb/SO"],
            fields := [("/gdb/SC", ["OrigPlan", "DocLink"]),
                       ("/gdb/SO", ["DocLink"])],
            counts := [], mergeResultFields := ["DocLink"],
            mergeFails := false, envStack := [], log := [] }).2.log) ∧
    ("OrigPlan" ∉ (["DocLink"] : List String) →
      Event.logWarning
          "Field 'OrigPlan' not present in output; skipping DeleteIdentical" ∈
        (run_of2 "E" "/gdb" "SC" "SO" "Parcels" "out" none
          { cwd := "/cw", existing := ["/gdb/Parcels", "/gdb/SC", "/gdb/SO"],
            fields := [("/gdb/SC", ["OrigPlan", "DocLink"]),
                       ("/gdb/SO", ["DocLink"])],
            counts := [], mergeResultFields := ["DocLink"],
            mergeFails := false, envStack := [], log := [] }).2.log ∧
      Event.deleteIdenticalE "/gdb/out" ["OrigPlan"] ∉
        (run_of2 "E" "/gdb" "SC" "SO" "Parcels" "out" none
          { cwd := "/cw", existing := ["/gdb/Parcels", "/gdb/SC", "/gdb/SO"],
            fields := [("/gdb/SC", ["OrigPlan", "DocLink"]),
                       ("/gdb/SO", ["DocLink"])],
            counts := [], mergeResultFields := ["DocLink"],
            mergeFails := false, envStack := [], log := [] }).2.log)) :=
  ⟨c5_dedup_or_skip "E" "/gdb" "SC" "SO" "Parcels" "out" none _
    "/gdb" "/gdb/Parcels" "/gdb/SC" "/gdb/SO" "/gdb/out"
    rfl rfl rfl rfl rfl (by decide) (by decide) (by decide) (by decide)
    (by decide) (by decide) (by decide) (by decide) (by decide) (by decide)
    (by decide) (by decide) (by decide) rfl rfl,
   c5_dedup_or_skip "E" "/gdb" "SC" "SO" "Parcels" "out" none _
    "/gdb" "/gdb/Parcels" "/gdb/SC" "/gdb/SO" "/gdb/out"
    rfl rfl rfl rfl rfl (by decide) (by decide) (by decide) (by decide)
    (by decide) (by decide) (by decide) (by decide) (by decide) (by decide)
    (by decide) (by decide) (by decide) rfl rfl⟩

/-- C7: the output path is `output_ref` itself when it has a directory
component and `join(workspace, output_ref)` otherwise; a dataset already
at that location is deleted before the merge writes there, and the
post-run dataset at the output path carries the schema the merge just
produced. -/
theorem c7_output_overwrite (expression workspace_gdb storm_catchment
    storm_cleanout parcels output_fc : String) (scratch_gdb : Option String)
    (w : World) (ws pp sc so outp : String)
    (hws : ws = os_abspath w.cwd workspace_gdb)
    (hpp : pp = resolve_dataset parcels ws)
    (hsc : sc = resolve_dataset storm_catchment ws)
    (hso : so = resolve_dataset storm_cleanout ws)
    (houtp : outp = if os_dirname output_fc ≠ "" then output_fc
      else os_join ws output_fc)
    (hex1 : arcpy_Exists w pp = true)
    (hex2 : arcpy_Exists w sc = true)
    (hex3 : arcpy_Exists w so = true)
    (hsc1 : sc ≠ "storm_catchment_layer") (hsc2 : sc ≠ "parcels_layer")
    (hso1 : so ≠ "storm_cleanout_layer") (hso2 : so ≠ "storm_catchment_layer")
    (hso3 : so ≠ "parcels_layer")
    (hno1 : outp ≠ "parcels_layer") (hno2 : outp ≠ "storm_catchment_layer")
    (hno3 : outp ≠ "storm_cleanout_layer")
    (hOP : "OrigPlan" ∈ lookupF w.fields sc ∨ "OrigPlan" ∈ lookupF w.fields so)
    (hDL : "DocLink" ∈ lookupF w.fields sc ∨ "DocLink" ∈ lookupF w.fields so)
    (hmf : w.mergeFails = false)
    (hexo : arcpy_Exists w outp = true) :
    (os_dirname output_fc ≠ "" → outp = output_fc) ∧
    (os_dirname output_fc = "" → outp = os_join ws output_fc) ∧
    (run_of2 expression workspace_gdb storm_catchment storm_cleanout parcels
      output_fc scratch_gdb w).1 = .ok outp ∧
    lookupF (run_of2 expression workspace_gdb storm_catchment storm_cleanout
      parcels output_fc scratch_gdb w).2.fields outp = w.mergeResultFields ∧
    ∃ l1 l3,
      (run_of2 expression workspace_gdb storm_catchment storm_cleanout parcels
        output_fc scratch_gdb w).2.log =
        l1 ++ [.deleteE outp,
          .mergeE ["storm_catchment_layer", "storm_cleanout_layer"] outp]
          ++ l3 := by
  obtain ⟨r1, r2, r3⟩ := run_of2_success_spec expression workspace_gdb
    storm_catchment storm_cleanout parcels output_fc scratch_gdb w ws pp sc so
    outp hws hpp hsc hso houtp hex1 hex2 hex3 hsc1 hsc2 hso1 hso2 hso3 hno1
    hno2 hno3 hOP hDL hmf
  refine ⟨?_, ?_, r1, r2, ?_⟩
  · intro h
    rw [houtp]
    simp [h]
  · intro h
    rw [houtp]
    simp [h]
  · refine ⟨w.log
      ++ [.envEnter
            { workspace := ws,
              scratchWorkspace :=
                (match scratch_gdb with
                 | some s => if s = "" then ws else os_abspath w.cwd s
                 | none => ws),
              overwriteOutput := true,
              parallelProcessingFactor := "100%" }]
      ++ (if arcpy_Exists w "parcels_layer"
          then [.deleteE "parcels_layer"] else [])
      ++ [.makeLayer pp "parcels_layer" expression]
      ++ (if arcpy_Exists w "storm_catchment_layer"
          then [.deleteE "storm_catchment_layer"] else [])
      ++ [.makeLayer sc "storm_catchment_layer" ""]
      ++ (if arcpy_Exists w "storm_cleanout_layer"
          then [.deleteE "storm_cleanout_layer"] else [])
      ++ [.makeLayer so "storm_cleanout_layer" ""]
      ++ [.selectByLocation ["storm_catchment_layer", "storm_cleanout_layer"]
            "INTERSECT" "parcels_layer" "NEW_SELECTION",
          .getCountE "storm_catchment_layer",
          .getCountE "storm_cleanout_layer",
          .logInfo ("Selected "
            ++ toString (lookupCount w.counts "storm_catchment_layer")
            ++ " catchment and "
            ++ toString (lookupCount w.counts "storm_cleanout_layer")
            ++ " cleanout features")],
      (if w.mergeResultFields.contains "OrigPlan"
       then [.deleteIdenticalE outp ["OrigPlan"]]
       else [.logWarning
         "Field 'OrigPlan' not present in output; skipping DeleteIdentical"])
      ++ [.envExit], ?_⟩
    rw [r3]
    simp [hexo, List.append_assoc]
    cases scratch_gdb <;> rfl

/-- Witness for C7: the output name `out` has no directory component, so
it resolves into the workspace, and the stale dataset there is deleted
before the merge. -/
theorem c7_output_overwrite_witness :
    (os_dirname "out" ≠ "" → "/gdb/out" = "out") ∧
    (os_dirname "out" = "" → "/gdb/out" = os_join "/gdb" "out") ∧
    (run_of2 "E" "/gdb" "SC" "SO" "Parcels" "out" none
      { cwd := "/cw",
        existing := ["/gdb/Parcels", "/gdb/SC", "/gdb/SO", "/gdb/out"],
        fields := [("/gdb/SC", ["OrigPlan", "DocLink"]),
                   ("/gdb/SO", ["DocLink"])],
        counts := [], mergeResultFields := ["OrigPlan", "DocLink"],
        mergeFails := false, envStack := [], log := [] }).1 =
      .ok "/gdb/out" ∧
    lookupF (run_of2 "E" "/gdb" "SC" "SO" "Parcels" "out" none
      { cwd := "/cw",
        existing := ["/gdb/Parcels", "/gdb/SC", "/gdb/SO", "/gdb/out"],
        fields := [("/gdb/SC", ["OrigPlan", "DocLink"]),
                   ("/gdb/SO", ["DocLink"])],
        counts := [], mergeResultFields := ["OrigPlan", "DocLink"],
        mergeFails := false, envStack := [], log := [] }).2.fields "/gdb/out" =
      ["OrigPlan", "DocLink"] ∧
    ∃ l1 l3,
      (run_of2 "E" "/gdb" "SC" "SO" "Parcels" "out" none
        { cwd := "/cw",
          existing := ["/gdb/Parcels", "/gdb/SC", "/gdb/SO", "/gdb/out"],
          fields := [("/gdb/SC", ["OrigPlan", "DocLink"]),
                     ("/gdb/SO", ["DocLink"])],
          counts := [], mergeResultFields := ["OrigPlan", "DocLink"],
          mergeFails := false, envStack := [], log := [] }).2.log =
        l1 ++ [.deleteE "/gdb/out",
          .mergeE ["storm_catchment_layer", "storm_cleanout_layer"]
            "/gdb/out"] ++ l3 :=
  c7_output_overwrite "E" "/gdb" "SC" "SO" "Parcels" "out" none _
    "/gdb" "/gdb/Parcels" "/gdb/SC" "/gdb/SO" "/gdb/out"
    rfl rfl rfl rfl rfl (by decide) (by decide) (by decide) (by decide)
    (by decide) (by decide) (by decide) (by decide) (by decide) (by decide)
    (by decide) (by decide) (by decide) rfl (by decide)

end OF2
